import Mathlib

/-!
Verification development for the agentic AWS RAG repository.

Python text is modelled as `List Char`; Python `str` slicing and cleaning are
translated directly from `src/utils/text_processing.py`.  The regex classes
`\s` and `\w` are modelled over the ASCII range the repository actually feeds
them (whitespace characters and alphanumerics plus underscore).
-/

/-- Shorthand: the character list of a Lean string literal. -/
def str (s : String) : List Char := s.data

/-- Python regex `\s` (ASCII range): the whitespace characters. -/
def isPyWhitespace (c : Char) : Bool :=
  c == ' ' || c == '\t' || c == '\n' || c == '\r' || c == '\x0b' || c == '\x0c'

/-- Python regex `\w` (ASCII range): alphanumerics and underscore. -/
def isWordChar (c : Char) : Bool :=
  c.isAlphanum || c == '_'

/-- The punctuation retained by `clean_text`
    (regex class `[\.\,\!\?\;\:\-\(\)\[\]\{\}]` in text_processing.py line 15). -/
def isKeptPunct (c : Char) : Bool :=
  c == '.' || c == ',' || c == '!' || c == '?' || c == ';' || c == ':' ||
  c == '-' || c == '(' || c == ')' || c == '[' || c == ']' ||
  c == '\x7b' || c == '\x7d'

/-- `re.sub(r"\s+", " ", text)`: each maximal run of whitespace becomes one
    space.  The Boolean argument records whether the previous character was
    part of a whitespace run. -/
def collapseWsAux : Bool → List Char → List Char
  | _, [] => []
  | prevWs, c :: rest =>
    if isPyWhitespace c then
      if prevWs then collapseWsAux true rest
      else ' ' :: collapseWsAux true rest
    else c :: collapseWsAux false rest

/-- `re.sub(r"\s+", " ", text)` from `clean_text` (text_processing.py line 13). -/
def collapseWs (l : List Char) : List Char := collapseWsAux false l

/-- Python `str.strip()`: drop whitespace from both ends. -/
def pyStrip (l : List Char) : List Char :=
  ((l.dropWhile isPyWhitespace).reverse.dropWhile isPyWhitespace).reverse

/-- A character surviving the second `re.sub` of `clean_text`
    (text_processing.py line 15): word characters, whitespace, and the
    retained punctuation. -/
def keepChar (c : Char) : Bool :=
  isWordChar c || isPyWhitespace c || isKeptPunct c

/-- `clean_text` (text_processing.py lines 10-17): collapse whitespace runs,
    drop the characters outside the retained class, then strip. -/
def clean_text (text : List Char) : List Char :=
  pyStrip ((collapseWs text).filter keepChar)

/-- `len(text.split())`: the number of maximal non-whitespace runs.  The
    Boolean argument records whether the previous character was non-whitespace. -/
def wordCountAux : Bool → List Char → Nat
  | _, [] => 0
  | prev, c :: rest =>
    if isPyWhitespace c then wordCountAux false rest
    else (if prev then 0 else 1) + wordCountAux true rest

/-- Python `len(text.split())` used by `extract_metadata`. -/
def wordCount (l : List Char) : Nat := wordCountAux false l

/-- Python slice-index resolution for `s[a:b]` on a sequence of length `len`:
    a negative index counts from the end (clamped below at 0), a non-negative
    index is clamped above at `len`. -/
def pySliceIdx (len : Nat) (i : Int) : Nat :=
  if i < 0 then ((len : Int) + i).toNat else min i.toNat len

/-- Python `l[a:b]`. -/
def pySlice (l : List Char) (a b : Int) : List Char :=
  (l.take (pySliceIdx l.length b)).drop (pySliceIdx l.length a)

/-- `chunk_size` default from config/settings.py line 31. -/
def settings_chunk_size : Nat := 1000

/-- `chunk_overlap` default from config/settings.py line 32. -/
def settings_chunk_overlap : Nat := 200

/-- The `while start < len(text)` loop of `split_text_into_chunks`
    (text_processing.py lines 29-46), fuel-indexed.  Each iteration computes
    `end = start + chunk_size`, pulls the slicing start back by
    `chunk_overlap` when `start > 0` (the loop variable itself is then
    overwritten with `end`), extracts and cleans the slice, and keeps it when
    non-empty.  The fuel bounds the number of iterations; `text.length` fuel
    is sufficient whenever `0 < cs` because `start` advances by `cs` each
    iteration. -/
def split_chunks_aux (text : List Char) (cs ov : Nat) : Nat → Nat → List (List Char)
  | 0, _ => []
  | fuel + 1, start =>
    if start < text.length then
      let e := start + cs
      let s : Int := if 0 < start then (start : Int) - (ov : Int) else (start : Int)
      let chunk := clean_text (pySlice text s (e : Int))
      if chunk = [] then split_chunks_aux text cs ov fuel e
      else chunk :: split_chunks_aux text cs ov fuel e
    else []

/-- `split_text_into_chunks(text, chunk_size, chunk_overlap)`
    (text_processing.py lines 19-49) with both sizes passed explicitly
    (the Python defaults are the settings values above). -/
def split_text_into_chunks (text : List Char) (cs ov : Nat) : List (List Char) :=
  split_chunks_aux text cs ov text.length 0

/-- The same loop, recording for every iteration the slice bounds
    `(adjusted start, end)` actually used to extract that window of the text
    (windows whose cleaned slice is empty are still iterations of the loop). -/
def chunkWindowsAux (len cs ov : Nat) : Nat → Nat → List (Int × Int)
  | 0, _ => []
  | fuel + 1, start =>
    if start < len then
      let e := start + cs
      let s : Int := if 0 < start then (start : Int) - (ov : Int) else (start : Int)
      (s, (e : Int)) :: chunkWindowsAux len cs ov fuel e
    else []

/-- The slice windows walked by `split_text_into_chunks` over a text of length
    `len`. -/
def chunkWindows (len cs ov : Nat) : List (Int × Int) :=
  chunkWindowsAux len cs ov len 0

/-! ## Module import semantics (services/bedrock_service.py, services/opensearch_service.py)

Both service modules execute a bare `raise NotImplementedError(...)` at module
level (lines 1-4), before the class definitions further down, so importing
either module fails. -/

/-- A Python exception as far as this repository raises them at import time. -/
inductive PyExc where
  | notImplementedError (msg : String) : PyExc
deriving DecidableEq

/-- Importing `services.bedrock_service`: line 4 raises before anything else
    in the module runs. -/
def importBedrockService : Except PyExc Unit :=
  Except.error (PyExc.notImplementedError
    "This module is deprecated. Use LangChain\x27s BedrockEmbeddings instead.")

/-- Importing `services.opensearch_service`: line 4 raises before anything
    else in the module runs. -/
def importOpenSearchService : Except PyExc Unit :=
  Except.error (PyExc.notImplementedError
    "This module is deprecated. Use LangChain\x27s OpenSearchVectorSearch instead.")

/-- Importing `agents.document_processor_agent`: its import list reaches
    `from services.bedrock_service import BedrockService` and then
    `from services.opensearch_service import OpenSearchService`. -/
def importDocumentProcessorAgent : Except PyExc Unit := do
  importBedrockService
  importOpenSearchService

/-- Importing `agents.query_agent`: imports BedrockService then
    OpenSearchService. -/
def importQueryAgent : Except PyExc Unit := do
  importBedrockService
  importOpenSearchService

/-- Importing `models.rag_pipeline`: imports the two agents and the
    OpenSearch service (rag_pipeline.py lines 6-8). -/
def importRagPipelineModule : Except PyExc Unit := do
  importDocumentProcessorAgent
  importQueryAgent
  importOpenSearchService

/-- Constructing `RAGPipeline()` (rag_pipeline.py lines 15-20): the class is
    only reachable after its module imports, and `__init__` would then build
    `DocumentProcessorAgent()`, `QueryAgent()` and `OpenSearchService()`. -/
def RAGPipeline_init : Except PyExc Unit := do
  importRagPipelineModule

/-- Any public pipeline operation (`ingest_documents`, `query`,
    `remove_source`, `get_pipeline_stats`, `health_check`, `reset_pipeline`)
    first needs a constructed pipeline. -/
def pipeline_operation {α : Type} (op : Unit → α) : Except PyExc α := do
  let h ← RAGPipeline_init
  pure (op h)

/-! ## Chunk identity (agents/document_processor_agent.py line 191) -/

/-- `chunk_id = f"{source_name}_{i}_{uuid.uuid4().hex[:8]}"`: the uuid hex
    drawn for that chunk is passed in explicitly. -/
def chunk_id (source : List Char) (i : Nat) (uuidHex : List Char) : List Char :=
  source ++ str "_" ++ (toString i).data ++ str "_" ++ uuidHex.take 8

/-- The ids assigned by one run of the `for i, (chunk, embedding) in
    enumerate(...)` loop of `process_file` over `n` chunks, where `uuid i` is
    the hex of the `uuid.uuid4()` drawn at iteration `i` of that run. -/
def assignChunkIds (source : List Char) (n : Nat) (uuid : Nat → List Char) :
    List (List Char) :=
  (List.range n).map (fun i => chunk_id source i (uuid i))

/-! ## Document processing and batch ingestion
(agents/document_processor_agent.py, models/rag_pipeline.py)

The external collaborators (file extraction, Bedrock embeddings, OpenSearch
indexing, the per-call uuid draws) are supplied as an environment; the control
flow of `process_file` and `ingest_documents` is translated directly. -/

/-- The metadata dict built by `extract_metadata` (text_processing.py
    lines 52-60). -/
structure DocMetadata where
  msource : List Char
  length : Nat
  word_count : Nat
  chunk_count : Nat
deriving DecidableEq

/-- `extract_metadata(text, source)`. -/
def extract_metadata (text : List Char) (source : List Char) : DocMetadata :=
  { msource := source
    length := text.length
    word_count := wordCount text
    chunk_count := (split_text_into_chunks text settings_chunk_size
      settings_chunk_overlap).length }

/-- `preprocess_document(text, source)` (text_processing.py lines 63-79):
    returns the cleaned text, its chunks (chunked with the settings sizes),
    and the metadata of the cleaned text. -/
def preprocess_document (text : List Char) (source : List Char) :
    List Char × List (List Char) × DocMetadata :=
  let cleaned := clean_text text
  (cleaned,
   split_text_into_chunks cleaned settings_chunk_size settings_chunk_overlap,
   extract_metadata cleaned source)

/-- One entry of `documents_to_index` (document_processor_agent.py
    lines 193-203). -/
structure ToIndex (Emb : Type) where
  content : List Char
  embedding : Emb
  chunk_index : Nat
  total_chunks : Nat
  base : DocMetadata
  source : List Char
  idxid : List Char

/-- The result dict of `process_file`: on success the keys are
    `success, source, total_chunks, file_path, metadata`; on failure they are
    `success, source, error, file_path` (absent keys are `none`). -/
structure ItemResult where
  success : Bool
  source : List Char
  total_chunks : Option Nat
  metadata : Option DocMetadata
  error : Option (List Char)
  file_path : List Char
deriving DecidableEq

/-- The external collaborators of `DocumentProcessorAgent`:
    `_extract_text_from_file` (which re-raises on failure),
    `generate_embeddings` (which raises on provider failure),
    `index_documents` (which catches internally and returns a Bool), and the
    `uuid.uuid4().hex` stream drawn while processing a given file. -/
structure FileEnv (Emb : Type) where
  extract : List Char → Except (List Char) (List Char)
  embed : List (List Char) → Except (List Char) (List Emb)
  indexDocs : List (ToIndex Emb) → Bool
  uuid : List Char → Nat → List Char

/-- `Path(file_path).name` for POSIX-style paths. -/
def pyBasename (path : List Char) : List Char :=
  (path.reverse.takeWhile (fun c => c != '/')).reverse

/-- `DocumentProcessorAgent.process_file` (document_processor_agent.py
    lines 25-77): resolve the source name, then inside `try`: extract,
    preprocess, embed, build `documents_to_index`, index; any exception in
    extraction or embedding is caught and recorded as a failure dict. -/
def process_file {Emb : Type} (env : FileEnv Emb) (file_path : List Char)
    (source_name : Option (List Char)) : ItemResult :=
  let source := source_name.getD (pyBasename file_path)
  match env.extract file_path with
  | Except.error e =>
    { success := false, source := source, total_chunks := none,
      metadata := none, error := some e, file_path := file_path }
  | Except.ok text =>
    let pre := preprocess_document text source
    let chunks := pre.2.1
    match env.embed chunks with
    | Except.error e =>
      { success := false, source := source, total_chunks := none,
        metadata := none, error := some e, file_path := file_path }
    | Except.ok embeddings =>
      let docs := (chunks.zip embeddings).enum.map (fun p =>
        ({ content := p.2.1, embedding := p.2.2, chunk_index := p.1,
           total_chunks := chunks.length, base := pre.2.2, source := source,
           idxid := chunk_id source p.1 (env.uuid file_path p.1) } : ToIndex Emb))
      let ok := env.indexDocs docs
      { success := ok, source := source, total_chunks := some docs.length,
        metadata := some pre.2.2, error := none, file_path := file_path }

/-- The aggregate dict of `RAGPipeline.ingest_documents`. -/
structure IngestAggregate where
  total_files : Nat
  successful : Nat
  failed : Nat
  results : List ItemResult
deriving DecidableEq

/-- The `for i, file_path in enumerate(file_paths)` loop of
    `ingest_documents` (rag_pipeline.py lines 31-42), started at index `i`:
    per item, the source name is `source_names[i]` when present
    (`None` otherwise, including for an empty or too-short list), the item is
    processed, its result appended, and one of the two counters bumped. -/
def ingestAux {Emb : Type} (env : FileEnv Emb)
    (source_names : Option (List (List Char))) :
    List (List Char) → Nat → List ItemResult × Nat × Nat
  | [], _ => ([], 0, 0)
  | p :: rest, i =>
    let sn := source_names.bind (fun l => l.get? i)
    let r := process_file env p sn
    let t := ingestAux env source_names rest (i + 1)
    (r :: t.1,
     (if r.success then 1 else 0) + t.2.1,
     (if r.success then 0 else 1) + t.2.2)

/-- `RAGPipeline.ingest_documents(file_paths, source_names)`
    (rag_pipeline.py lines 22-45). -/
def ingest_documents {Emb : Type} (env : FileEnv Emb)
    (file_paths : List (List Char))
    (source_names : Option (List (List Char))) : IngestAggregate :=
  let t := ingestAux env source_names file_paths 0
  { total_files := file_paths.length, successful := t.2.1, failed := t.2.2,
    results := t.1 }

/-! ## Query path (agents/query_agent.py) -/

/-- One hit returned by `OpenSearchService.search_similar`. -/
structure SearchDoc where
  content : List Char
  source : List Char
  docid : List Char
  score : Rat
deriving DecidableEq, Inhabited

/-- One entry of the `sources` list built by `process_query`. -/
structure SourceInfo where
  content : List Char
  source : List Char
  score : Rat
  docid : List Char
deriving DecidableEq, Inhabited

/-- The result dict of `process_query`; the no-match and error dicts carry
    only `success, response, sources, query` (absent keys are `none`). -/
structure QueryResult where
  success : Bool
  response : List Char
  sources : List SourceInfo
  query : List Char
  num_sources : Option Nat
  avg_score : Option Rat
deriving DecidableEq

/-- The external collaborators of `QueryAgent`: the query embedding call
    (`generate_embeddings([cleaned_query])[0]`, which raises on provider
    failure), the vector search (`search_similar` catches internally and
    returns a list, `[]` on error), and the LLM call
    (`generate_response_with_rag`, which raises on provider failure). -/
structure QueryEnv (Emb : Type) where
  embed : List Char → Except (List Char) Emb
  search : Emb → Nat → List SearchDoc
  gen : List Char → List (List Char) → Except (List Char) (List Char)

/-- The display excerpt of one match
    (query_agent.py line 49): `doc["content"][:200] + "..."` when the content
    is longer than 200 characters, else the content itself. -/
def sourceExcerpt (content : List Char) : List Char :=
  if 200 < content.length then content.take 200 ++ str "..." else content

/-- One `source_info` dict (query_agent.py lines 48-53). -/
def mkSourceInfo (doc : SearchDoc) : SourceInfo :=
  { content := sourceExcerpt doc.content, source := doc.source,
    score := doc.score, docid := doc.docid }

/-- `QueryAgent.process_query(query, top_k, include_sources)`
    (query_agent.py lines 19-74): clean, embed, search; zero matches yield the
    distinguished no-match dict; otherwise generate the response and, when
    `include_sources`, the excerpted sources list.  Every exception raised
    inside is caught by the trailing `except` and turned into the error dict,
    so the operation always returns a dict. -/
def process_query {Emb : Type} (env : QueryEnv Emb) (query : List Char)
    (top_k : Nat) (include_sources : Bool) : QueryResult :=
  match env.embed (clean_text query) with
  | Except.error e =>
    { success := false,
      response := str "An error occurred while processing your query: " ++ e,
      sources := [], query := query, num_sources := none, avg_score := none }
  | Except.ok qemb =>
    let docs := env.search qemb top_k
    if docs = [] then
      { success := false,
        response :=
          str "I couldn\x27t find any relevant information to answer your question.",
        sources := [], query := query, num_sources := none, avg_score := none }
    else
      match env.gen (clean_text query) (docs.map SearchDoc.content) with
      | Except.error e =>
        { success := false,
          response := str "An error occurred while processing your query: " ++ e,
          sources := [], query := query, num_sources := none, avg_score := none }
      | Except.ok resp =>
        { success := true, response := resp,
          sources := if include_sources then docs.map mkSourceInfo else [],
          query := query, num_sources := some docs.length,
          avg_score := some (((docs.map SearchDoc.score).sum) / (docs.length : Rat)) }

/-! ## Reset (models/rag_pipeline.py lines 135-147)

The persisted OpenSearch index is modelled as the list of its entries;
`get_index_stats` reports their count.  `reset_pipeline` only logs a warning
and returns `True` ("For now, we will just return success"): it performs no
index operation at all. -/

/-- One persisted IndexEntry of the OpenSearch index. -/
structure IndexedDoc where
  docid : List Char
  content : List Char
  source : List Char
deriving DecidableEq

/-- `total_documents` of `OpenSearchService.get_index_stats`. -/
def get_index_stats_total (index : List IndexedDoc) : Nat := index.length

/-- `RAGPipeline.reset_pipeline` over the index state: returns `True` and
    leaves the index untouched (the body is a logging call and
    `return True`). -/
def reset_pipeline (index : List IndexedDoc) : Bool × List IndexedDoc :=
  (true, index)

/-! ## Concrete environments used by the witnesses -/

/-- A batch environment in which exactly the file `bad.txt` fails extraction. -/
def envBatch : FileEnv Unit :=
  { extract := fun p =>
      if p = str "bad.txt" then Except.error (str "boom")
      else Except.ok (str "hello world")
    embed := fun cs => Except.ok (cs.map (fun _ => ()))
    indexDocs := fun _ => true
    uuid := fun _ _ => str "0123abcd" }

/-- A query environment whose index is empty: every search returns no hits. -/
def envEmptyIndex : QueryEnv Unit :=
  { embed := fun _ => Except.ok ()
    search := fun _ _ => []
    gen := fun _ _ => Except.ok [] }

/-- A query environment returning a single long match (250 characters), to
    exercise the excerpt truncation. -/
def envLongDoc : QueryEnv Unit :=
  { embed := fun _ => Except.ok ()
    search := fun _ _ =>
      [{ content := List.replicate 250 'x', source := str "doc1",
         docid := str "doc1_0_0123abcd", score := 1 }]
    gen := fun _ _ => Except.ok (str "answer") }

/-! ## Theorems -/

/-- C1: constructing a `RAGPipeline` (and hence reaching any public pipeline
    operation through it) always raises `NotImplementedError`, because the
    `bedrock_service` and `opensearch_service` modules unconditionally raise
    at module import time, before any class in them is defined. -/
theorem C1_pipeline_init_raises :
    RAGPipeline_init = Except.error (PyExc.notImplementedError
      "This module is deprecated. Use LangChain\x27s BedrockEmbeddings instead.") ∧
    ∀ (α : Type) (op : Unit → α),
      pipeline_operation op = Except.error (PyExc.notImplementedError
        "This module is deprecated. Use LangChain\x27s BedrockEmbeddings instead.") :=
  ⟨rfl, fun _ _ => rfl⟩

set_option maxRecDepth 40000 in
/-- C2: evaluation at a failing input.  With `chunk_size = 3 > overlap = 1`,
    chunking `"abcdefgh"` returns the chunk `"cdef"` of length `4 > 3`: the
    slice end is computed before the start is pulled back by the overlap, so
    every chunk after the first spans `chunk_size + overlap` characters.
    This contradicts the claim and the repository test
    (tests/test_rag_pipeline.py line 32 asserts every chunk length is at most
    `chunk_size`). -/
theorem C2_chunk_exceeds_eval :
    split_text_into_chunks (str "abcdefgh") 3 1 =
      [str "abc", str "cdef", str "fgh"] ∧
    (∃ c ∈ split_text_into_chunks (str "abcdefgh") 3 1, 3 < c.length) ∧
    (∃ c ∈ split_text_into_chunks
        ((List.replicate 10
          (str "This is a test text that should be split into chunks. ")).flatten)
        50 10,
      50 < c.length) := by
  decide

/-- C3 counterexample: the chunk id is not a function of `(source, index)`
    alone.  Two ingestion runs of the same single-chunk document with source
    `"doc"` whose uuid draws differ produce different ids, and the id of the
    first run is not in the id set of the second run. -/
theorem C3_counterexample :
    assignChunkIds (str "doc") 1 (fun _ => str "aaaaaaaa") =
      [str "doc_0_aaaaaaaa"] ∧
    assignChunkIds (str "doc") 1 (fun _ => str "bbbbbbbb") =
      [str "doc_0_bbbbbbbb"] ∧
    str "doc_0_aaaaaaaa" ∉
      assignChunkIds (str "doc") 1 (fun _ => str "bbbbbbbb") := by
  decide

/-- C3 amended: the id assigned at `(source, index)` is
    `source ++ "_" ++ index ++ "_" ++ suffix` where `suffix` is the first 8
    characters of the fresh `uuid4` hex drawn for that chunk in that run; ids
    of two runs at the same `(source, index)` agree exactly when the drawn
    8-character suffixes agree, so re-ingestion generally creates new ids
    (duplication) rather than reusing the old ones (upsert). -/
theorem C3_amended (source : List Char) (n : Nat)
    (uuid uuid₂ : Nat → List Char) (i : Nat) (hi : i < n) :
    (assignChunkIds source n uuid).get? i =
      some (chunk_id source i (uuid i)) ∧
    (chunk_id source i (uuid i) = chunk_id source i (uuid₂ i) ↔
      (uuid i).take 8 = (uuid₂ i).take 8) := by
  constructor
  · simp [assignChunkIds, List.get?_eq_getElem?, List.getElem?_map,
      List.getElem?_range hi]
  · simp [chunk_id, List.append_assoc]

/-- C3 amended, witness at a concrete input: source `"doc"`, two chunks, two
    runs whose draws share the first 8 hex characters, position `i = 1`. -/
theorem C3_amended_witness :
    (assignChunkIds (str "doc") 2 (fun _ => str "deadbeefcafe")).get? 1 =
      some (chunk_id (str "doc") 1 (str "deadbeefcafe")) ∧
    (chunk_id (str "doc") 1 (str "deadbeefcafe") =
        chunk_id (str "doc") 1 (str "deadbeef0000") ↔
      (str "deadbeefcafe").take 8 = (str "deadbeef0000").take 8) :=
  C3_amended (str "doc") 2 (fun _ => str "deadbeefcafe")
    (fun _ => str "deadbeef0000") 1 (by decide)

/-- Once the loop variable has reached the text length, the loop body never
    runs again, whatever fuel remains. -/
theorem split_chunks_aux_stop (text : List Char) (cs ov start : Nat)
    (h : text.length ≤ start) :
    ∀ fuel, split_chunks_aux text cs ov fuel start = [] := by
  intro fuel
  cases fuel with
  | zero => rfl
  | succ fuel => simp [split_chunks_aux, Nat.not_lt.mpr h]

/-- The chunk list is independent of the fuel bound as soon as the fuel
    covers the remaining iterations: with `0 < cs` the loop variable advances
    by `cs` every iteration, so the Python `while` loop terminates. -/
theorem split_chunks_aux_fuel_eq (text : List Char) (cs ov : Nat) :
    ∀ (fuel fuel' start : Nat), text.length ≤ start + fuel * cs →
      text.length ≤ start + fuel' * cs →
      split_chunks_aux text cs ov fuel start =
        split_chunks_aux text cs ov fuel' start := by
  intro fuel
  induction fuel with
  | zero =>
    intro fuel' start h1 h2
    have hle : text.length ≤ start := by simpa using h1
    rw [split_chunks_aux_stop text cs ov start hle fuel']
    rfl
  | succ fuel ih =>
    intro fuel' start h1 h2
    by_cases hlt : start < text.length
    · cases fuel' with
      | zero =>
        exfalso
        have : text.length ≤ start := by simpa using h2
        omega
      | succ fuel' =>
        have h1' : text.length ≤ (start + cs) + fuel * cs := by
          rw [Nat.succ_mul] at h1; omega
        have h2' : text.length ≤ (start + cs) + fuel' * cs := by
          rw [Nat.succ_mul] at h2; omega
        simp only [split_chunks_aux, if_pos hlt]
        rw [ih fuel' (start + cs) h1' h2']
    · have hle := Nat.not_lt.mp hlt
      rw [split_chunks_aux_stop text cs ov start hle,
        split_chunks_aux_stop text cs ov start hle]

/-- The windows of the loop, from a start that is a positive multiple of the
    chunk size, have the closed form
    `((j+i)*cs - ov, (j+i+1)*cs)` at position `i`. -/
theorem chunkWindowsAux_get?_eq (len cs ov : Nat) (hcs : 0 < cs) :
    ∀ (fuel j i : Nat) (w : Int × Int), 0 < j →
      (chunkWindowsAux len cs ov fuel (j * cs)).get? i = some w →
      w = ((((j + i) * cs : Nat) : Int) - (ov : Int),
           (((j + i + 1) * cs : Nat) : Int)) := by
  intro fuel
  induction fuel with
  | zero =>
    intro j i w hj h
    simp [chunkWindowsAux] at h
  | succ fuel ih =>
    intro j i w hj h
    by_cases hlt : j * cs < len
    · simp only [chunkWindowsAux, if_pos hlt] at h
      have hpos : 0 < j * cs := Nat.mul_pos hj hcs
      cases i with
      | zero =>
        simp only [List.get?_cons_zero, Option.some.injEq] at h
        rw [← h, if_pos hpos]
        simp only [Prod.mk.injEq]
        constructor <;> (push_cast; ring)
      | succ i =>
        simp only [List.get?_cons_succ] at h
        rw [show j * cs + cs = (j + 1) * cs from (Nat.succ_mul j cs).symm] at h
        have hres := ih (j + 1) i w (Nat.succ_pos j) h
        rw [hres]
        simp only [Prod.mk.injEq]
        constructor <;> (push_cast; ring)
    · simp only [chunkWindowsAux, if_neg hlt] at h
      simp at h

/-- C4 counterexample: for text length 8, `chunk_size = 3`, `overlap = 1`,
    the loop walks the windows `[0,3), [2,6), [5,9)`: the second and third
    window starts differ by `3 = chunk_size`, not by
    `chunk_size - overlap = 2`, refuting the claimed uniform stride. -/
theorem C4_counterexample :
    chunkWindows 8 3 1 = [((0 : Int), (3 : Int)), (2, 6), (5, 9)] ∧
    ¬ ((5 : Int) - 2 = 3 - 1) := by
  decide

/-- C4 amended: window 0 covers `[0, chunkSize)` and window `i >= 1` covers
    `[i*chunkSize - overlap, (i+1)*chunkSize)`: the slice end is computed
    before the start is pulled back, so only the first stride is
    `chunkSize - overlap`; afterwards consecutive starts differ by exactly
    `chunkSize`, and every window after the first spans
    `chunkSize + overlap` characters. -/
theorem C4_amended (len cs ov : Nat) (hcs : 0 < cs) (i : Nat) (w : Int × Int)
    (h : (chunkWindows len cs ov).get? i = some w) :
    w = (if i = 0 then (0 : Int) else (i : Int) * (cs : Int) - (ov : Int),
         ((i : Int) + 1) * (cs : Int)) := by
  unfold chunkWindows at h
  cases hlen : len with
  | zero =>
    subst hlen
    simp [chunkWindowsAux] at h
  | succ m =>
    subst hlen
    simp only [chunkWindowsAux, if_pos (Nat.succ_pos m)] at h
    cases i with
    | zero =>
      simp only [List.get?_cons_zero, Option.some.injEq] at h
      rw [← h]
      simp only [Nat.lt_irrefl, if_false, if_pos rfl, Prod.mk.injEq]
      constructor <;> (push_cast; try ring)
    | succ i =>
      simp only [List.get?_cons_succ] at h
      rw [show (0 : Nat) + cs = 1 * cs by ring] at h
      have hres := chunkWindowsAux_get?_eq (m + 1) cs ov hcs m 1 i w
        Nat.one_pos h
      rw [hres]
      simp only [Nat.succ_ne_zero, if_false, Prod.mk.injEq]
      constructor <;> (push_cast; ring)

/-- C4 amended, witness: text length 8, `chunk_size = 3`, `overlap = 1`,
    window `i = 2` is `(2*3 - 1, (2+1)*3) = (5, 9)`. -/
theorem C4_amended_witness :
    ((5 : Int), (9 : Int)) =
      (if (2 : Nat) = 0 then (0 : Int)
       else ((2 : Nat) : Int) * ((3 : Nat) : Int) - ((1 : Nat) : Int),
       (((2 : Nat) : Int) + 1) * ((3 : Nat) : Int)) :=
  C4_amended 8 3 1 (by decide) 2 (5, 9) (by decide)

/-- A slice `l[a:b]` with `a = 0` and `b` at least the length is the whole
    sequence. -/
theorem pySlice_all (l : List Char) (a b : Int) (ha : a = 0)
    (hb : (l.length : Int) ≤ b) : pySlice l a b = l := by
  subst ha
  unfold pySlice pySliceIdx
  have hb0 : ¬ b < 0 := by omega
  have hlen : l.length ≤ b.toNat := by omega
  rw [if_neg hb0, if_neg (by omega : ¬ (0 : Int) < 0)]
  simp [Nat.min_eq_right hlen]

/-- C6: chunking the empty string yields zero chunks, and chunking any text
    shorter than `chunk_size` yields exactly one chunk — the whole cleaned
    text — when the cleaned text is non-empty, else zero chunks. -/
theorem C6_short_input (text : List Char) (cs ov : Nat)
    (h : text.length < cs ∨ text.length = 0) :
    split_text_into_chunks text cs ov =
      if clean_text text = [] then [] else [clean_text text] := by
  rcases h with h | h
  · rcases Nat.eq_zero_or_pos text.length with hz | hpos
    · have ht : text = [] := List.length_eq_zero.mp hz
      subst ht
      rfl
    · unfold split_text_into_chunks
      obtain ⟨m, hm⟩ : ∃ m, text.length = m + 1 :=
        ⟨text.length - 1, by omega⟩
      rw [hm]
      have hslice : pySlice text 0 ((cs : Nat) : Int) = text :=
        pySlice_all text _ _ rfl (by omega)
      have htail : split_chunks_aux text cs ov m cs = [] :=
        split_chunks_aux_stop text cs ov cs (by omega) m
      simp [split_chunks_aux, hpos, hslice, htail]
  · have ht : text = [] := List.length_eq_zero.mp h
    subst ht
    rfl

/-- C6 witness: a two-character text with `chunk_size = 5` yields exactly the
    one chunk holding the whole (cleaned) text. -/
theorem C6_short_input_witness :
    split_text_into_chunks (str "hi") 5 1 = [str "hi"] := by
  rw [C6_short_input (str "hi") 5 1 (Or.inl (by decide))]
  decide

/-- C5 counterexample: with `chunk_size = 1 <= overlap = 2` the chunker does
    not fail fast: it silently proceeds and returns chunks (the pulled-back
    start `1 - 2 = -1` is resolved by Python negative indexing). -/
theorem C5_counterexample :
    split_text_into_chunks (str "ab") 1 2 = [str "a", str "b"] ∧
    split_text_into_chunks (str "ab") 1 2 ≠ [] := by
  decide

/-- C5 amended: `split_text_into_chunks` performs no validation of
    `chunk_size` against `chunk_overlap` and does not fail fast: for any
    `chunk_size >= 1` — the case `chunk_size <= overlap` included — the loop
    terminates with a fuel-independent value and silently returns chunks. -/
theorem C5_amended (text : List Char) (cs ov fuel : Nat) (hcs : 0 < cs)
    (hfuel : text.length ≤ fuel * cs) :
    split_chunks_aux text cs ov fuel 0 = split_text_into_chunks text cs ov := by
  unfold split_text_into_chunks
  apply split_chunks_aux_fuel_eq text cs ov fuel text.length 0
  · simpa using hfuel
  · have h := Nat.mul_le_mul_left text.length hcs
    simpa using h

/-- C5 amended, witness: `chunk_size = 1 <= overlap = 2` on `"ab"` with any
    sufficient fuel returns the same chunk list the function returns. -/
theorem C5_amended_witness :
    split_chunks_aux (str "ab") 1 2 5 0 = split_text_into_chunks (str "ab") 1 2 :=
  C5_amended (str "ab") 1 2 5 (by decide) (by decide)

/-- The ingestion loop started at index `i`: it returns one result slot per
    input, the two counters sum to the number of inputs, and the slot for
    offset `k` is exactly the independent processing of input `k` with source
    name `source_names[i+k]` (when present). -/
theorem ingestAux_spec {Emb : Type} (env : FileEnv Emb)
    (sns : Option (List (List Char))) :
    ∀ (paths : List (List Char)) (i : Nat),
      (ingestAux env sns paths i).1.length = paths.length ∧
      (ingestAux env sns paths i).2.1 + (ingestAux env sns paths i).2.2 =
        paths.length ∧
      ∀ k, (ingestAux env sns paths i).1.get? k =
        (paths.get? k).map
          (fun p => process_file env p (sns.bind (fun l => l.get? (i + k)))) := by
  intro paths
  induction paths with
  | nil =>
    intro i
    refine ⟨rfl, rfl, ?_⟩
    intro k
    simp [ingestAux]
  | cons p rest ih =>
    intro i
    obtain ⟨ihlen, ihcount, ihget⟩ := ih (i + 1)
    refine ⟨?_, ?_, ?_⟩
    · simp [ingestAux, ihlen]
    · simp only [ingestAux, List.length_cons]
      by_cases hs :
          (process_file env p (sns.bind (fun l => l.get? i))).success = true
      · simp only [if_pos hs]
        omega
      · simp only [if_neg hs]
        omega
    · intro k
      cases k with
      | zero =>
        simp [ingestAux]
      | succ k =>
        simp only [ingestAux, List.get?_cons_succ]
        rw [ihget k]
        have : i + 1 + k = i + (k + 1) := by omega
        rw [this]

/-- C7: batch ingestion isolates failures.  The aggregate holds exactly one
    result per input file in input order, the success and failure counters
    sum to the number of inputs, each slot is the independent processing of
    its own file (so one failure cannot affect the others), and a file whose
    extraction raises is recorded as a failure dict carrying the error
    message. -/
theorem C7_batch_isolation {Emb : Type} (env : FileEnv Emb)
    (paths : List (List Char)) (sns : Option (List (List Char))) :
    (ingest_documents env paths sns).total_files = paths.length ∧
    (ingest_documents env paths sns).results.length = paths.length ∧
    (ingest_documents env paths sns).successful +
      (ingest_documents env paths sns).failed = paths.length ∧
    (∀ k, (ingest_documents env paths sns).results.get? k =
      (paths.get? k).map
        (fun p => process_file env p (sns.bind (fun l => l.get? k)))) ∧
    (∀ p sn e, env.extract p = Except.error e →
      (process_file env p sn).success = false ∧
      (process_file env p sn).error = some e) := by
  obtain ⟨hlen, hcount, hget⟩ := ingestAux_spec env sns paths 0
  refine ⟨rfl, hlen, hcount, ?_, ?_⟩
  · intro k
    have h := hget k
    simpa using h
  · intro p sn e he
    simp [process_file, he]

/-- C7 witness: a batch of three files in which exactly `bad.txt` fails
    extraction: the counters sum to 3, and the failing item is recorded with
    `success = false` and its error message. -/
theorem C7_batch_isolation_witness :
    (ingest_documents envBatch [str "a.txt", str "bad.txt", str "c.txt"]
      none).successful +
      (ingest_documents envBatch [str "a.txt", str "bad.txt", str "c.txt"]
        none).failed = 3 ∧
    (process_file envBatch (str "bad.txt") none).success = false ∧
    (process_file envBatch (str "bad.txt") none).error = some (str "boom") := by
  have h := C7_batch_isolation envBatch
    [str "a.txt", str "bad.txt", str "c.txt"] none
  have hbad := h.2.2.2.2 (str "bad.txt") none (str "boom") rfl
  exact ⟨h.2.2.1, hbad.1, hbad.2⟩

/-- C8: a query whose vector search returns zero matches returns the
    structured no-match dict: `success = false`, the explanatory message, an
    empty sources list, and the original query — and, the whole body being
    wrapped in try/except returning dicts, no exception reaches the caller. -/
theorem C8_no_match {Emb : Type} (env : QueryEnv Emb) (query : List Char)
    (top_k : Nat) (inc : Bool) (qemb : Emb)
    (hembed : env.embed (clean_text query) = Except.ok qemb)
    (hsearch : env.search qemb top_k = []) :
    process_query env query top_k inc =
      { success := false,
        response :=
          str "I couldn\x27t find any relevant information to answer your question.",
        sources := [], query := query, num_sources := none,
        avg_score := none } := by
  simp [process_query, hembed, hsearch]

/-- C8 witness: a query against an empty index. -/
theorem C8_no_match_witness :
    process_query envEmptyIndex (str "What is beta?") 5 true =
      { success := false,
        response :=
          str "I couldn\x27t find any relevant information to answer your question.",
        sources := [], query := str "What is beta?", num_sources := none,
        avg_score := none } :=
  C8_no_match envEmptyIndex (str "What is beta?") 5 true () rfl rfl

/-- C10: with `include_sources = true`, every source entry of a query result
    displays a bounded truncation of its underlying match text: the full text
    when it has at most 200 characters, else exactly the first 200 characters
    followed by the `"..."` marker, so no excerpt exceeds 203 characters. -/
theorem C10_excerpt_truncation {Emb : Type} (env : QueryEnv Emb)
    (query : List Char) (top_k : Nat) (qemb : Emb)
    (hembed : env.embed (clean_text query) = Except.ok qemb) :
    ∀ s ∈ (process_query env query top_k true).sources,
      ∃ d ∈ env.search qemb top_k,
        s.content = sourceExcerpt d.content ∧
        (d.content.length ≤ 200 → s.content = d.content) ∧
        (200 < d.content.length →
          s.content = d.content.take 200 ++ str "...") ∧
        s.content.length ≤ 203 := by
  intro s hs
  simp only [process_query, hembed] at hs
  by_cases hd : env.search qemb top_k = []
  · simp [hd] at hs
  · rw [if_neg hd] at hs
    cases hgen : env.gen (clean_text query)
        ((env.search qemb top_k).map SearchDoc.content) with
    | error e => rw [hgen] at hs; simp at hs
    | ok resp =>
      rw [hgen] at hs
      simp at hs
      obtain ⟨d, hdmem, hsd⟩ := hs
      refine ⟨d, hdmem, ?_, ?_, ?_, ?_⟩
      · rw [← hsd]; rfl
      · intro hle
        rw [← hsd]
        simp [mkSourceInfo, sourceExcerpt, Nat.not_lt.mpr hle]
      · intro hgt
        rw [← hsd]
        simp [mkSourceInfo, sourceExcerpt, hgt]
      · rw [← hsd]
        by_cases h200 : 200 < d.content.length
        · simp only [mkSourceInfo, sourceExcerpt, if_pos h200]
          rw [List.length_append, List.length_take]
          have h3 : (str "...").length = 3 := rfl
          rw [h3]
          omega
        · simp only [mkSourceInfo, sourceExcerpt, if_neg h200]
          omega

set_option maxRecDepth 8000 in
/-- C10 witness: a successful query whose single match holds 250 characters:
    its displayed excerpt is the 200-character prefix plus the ellipsis. -/
theorem C10_excerpt_truncation_witness :
    ∃ d ∈ envLongDoc.search () 3,
      (process_query envLongDoc (str "q") 3 true).sources.headI.content =
        sourceExcerpt d.content ∧
      (d.content.length ≤ 200 →
        (process_query envLongDoc (str "q") 3 true).sources.headI.content =
          d.content) ∧
      (200 < d.content.length →
        (process_query envLongDoc (str "q") 3 true).sources.headI.content =
          d.content.take 200 ++ str "...") ∧
      (process_query envLongDoc (str "q") 3 true).sources.headI.content.length
        ≤ 203 :=
  C10_excerpt_truncation envLongDoc (str "q") 3 () rfl _ (by decide)

/-- C9: `reset_pipeline` is a stub: it reports success and leaves every
    persisted IndexEntry in place, so after a "successful" reset the stats
    still report the prior document count (here 1, not 0), contradicting the
    claim and the method docstring ("delete all documents"). -/
theorem C9_reset_stub :
    (∀ index : List IndexedDoc, reset_pipeline index = (true, index)) ∧
    (reset_pipeline [⟨str "doc1_0_0123abcd", str "hello", str "doc1"⟩]).1 = true ∧
    get_index_stats_total
      (reset_pipeline [⟨str "doc1_0_0123abcd", str "hello", str "doc1"⟩]).2 = 1 :=
  ⟨fun _ => rfl, rfl, rfl⟩
